import Mathlib

/-!
Shallow embedding of the scoreboard service's core logic:
score mutation with audit trail (src/services/scoreService.ts),
leaderboard queries with a rank cache (src/services/leaderboardService.ts),
request validation (src/middleware/validator.ts), and the HTTP controllers
(src/controllers/scoreController.ts, src/controllers/leaderboardController.ts).

Conventions of the embedding:
* Times are integer milliseconds (JavaScript Date.now()).
* Stored scores are integers (the scores table holds integer scores read
  back with parseInt).
* A score increment arriving in a request body is modelled as a rational
  number so that the JavaScript Number.isInteger check is expressible
  (a non-integer increment has denominator greater than 1).
* A JavaScript number that may be NaN (the result of parseInt on a
  non-numeric string) is modelled as Option Int with none standing for NaN;
  every comparison against NaN is false.
* The PostgreSQL pool and the Redis client are modelled by explicit state:
  a DB structure for the relational tables and a RankCache structure for the
  cached leaderboard value with its absolute expiry time.
-/

namespace Scoreboard

/-! ## Data model: relational tables -/

/-- A row of the users table (user_id, username). -/
structure User where
  userId : String
  username : String
  deriving Repr, DecidableEq

/-- A row of the scores table: one current score per participant. -/
structure ScoreRow where
  userId : String
  score : Int
  deriving Repr, DecidableEq

/-- A row of the score_history audit table, as inserted by updateScore. -/
structure HistoryEntry where
  userId : String
  scoreIncrement : Int
  previousScore : Int
  newScore : Int
  actionId : Option String
  ipAddress : Option String
  userAgent : Option String
  deriving Repr, DecidableEq

/-- The relational store: users, scores and the append-only audit table.
    Lists keep insertion order, which is the storage iteration order. -/
structure DB where
  users : List User
  scores : List ScoreRow
  history : List HistoryEntry
  deriving Repr, DecidableEq

/-- SELECT score FROM scores WHERE user_id = uid (at most one row). -/
def findScore (rows : List ScoreRow) (uid : String) : Option Int :=
  (rows.find? (fun r => r.userId == uid)).map (fun r => r.score)

/-- INSERT ... ON CONFLICT (user_id) DO UPDATE SET score = s. -/
def upsertScore : List ScoreRow → String → Int → List ScoreRow
  | [], uid, s => [⟨uid, s⟩]
  | r :: rs, uid, s =>
      if r.userId == uid then ⟨uid, s⟩ :: rs else r :: upsertScore rs uid s

/-! ## Validation (src/middleware/validator.ts) -/

/-- The replay window: 5 * 60 * 1000 milliseconds. -/
def MAX_TIME_DIFF : Int := 5 * 60 * 1000

/-- validateTimestamp: `if (!timestamp) return true` — undefined and the
    falsy number 0 both short-circuit to success; otherwise the absolute
    distance to server time must be at most five minutes. -/
def validateTimestamp (now : Int) (timestamp : Option Int) : Bool :=
  match timestamp with
  | none => true
  | some t => if t = 0 then true else decide (|now - t| ≤ MAX_TIME_DIFF)

/-- JavaScript truthiness of a possibly-absent number: undefined and 0 are
    falsy. Used for the `if (timestamp && ...)` guard in
    validateScoreUpdateRequest. -/
def jsTruthy : Option Int → Bool
  | none => false
  | some t => t != 0

/-- validateScoreUpdateRequest (src/services/scoreService.ts): throws unless
    the increment is an integer in [1, 1000]; then, if a truthy timestamp is
    present, throws unless validateTimestamp accepts it. An exception is
    modelled as Except.error carrying the message. -/
def validateScoreUpdateRequest (now : Int) (scoreIncrement : ℚ)
    (timestamp : Option Int) : Except String Bool :=
  if scoreIncrement.den ≠ 1 ∨ scoreIncrement < 1 ∨ 1000 < scoreIncrement then
    .error "Score increment must be between 1 and 1000"
  else if jsTruthy timestamp ∧ ¬ validateTimestamp now timestamp then
    .error "Invalid timestamp - possible replay attack"
  else
    .ok true

/-! ## Score Mutator (src/services/scoreService.ts updateScore) -/

/-- The value returned by updateScore. -/
structure UpdateScoreResult where
  previousScore : Int
  newScore : Int
  deriving Repr, DecidableEq

/-- The committed effect of updateScore's transaction: read the current
    score (0 when the participant has no row), upsert the new score, append
    one audit row, and return both scores. -/
def updateScore (db : DB) (userId : String) (scoreIncrement : Int)
    (actionId ipAddress userAgent : Option String) : UpdateScoreResult × DB :=
  let currentScore := (findScore db.scores userId).getD 0
  let newScore := currentScore + scoreIncrement
  let scores' := upsertScore db.scores userId newScore
  let history' := db.history ++
    [⟨userId, scoreIncrement, currentScore, newScore, actionId, ipAddress, userAgent⟩]
  (⟨currentScore, newScore⟩, ⟨db.users, scores', history'⟩)

/-- Which storage step of the transaction fails, if any. Each flag stands
    for the corresponding client.query call throwing. -/
structure TxFaults where
  failSelect : Bool
  failUpsert : Bool
  failInsertHistory : Bool
  failCommit : Bool
  deriving Repr, DecidableEq

/-- updateScore with its transactional failure semantics: the statements run
    inside BEGIN ... COMMIT; if any step throws, the catch block issues
    ROLLBACK and rethrows, so the store keeps its prior state and the caller
    sees the error. Effects become visible only at COMMIT. -/
def updateScoreTx (f : TxFaults) (db : DB) (userId : String)
    (scoreIncrement : Int) (actionId ipAddress userAgent : Option String) :
    Except Unit UpdateScoreResult × DB :=
  if f.failSelect then (.error (), db)
  else if f.failUpsert then (.error (), db)
  else if f.failInsertHistory then (.error (), db)
  else if f.failCommit then (.error (), db)
  else
    let (res, db') := updateScore db userId scoreIncrement actionId ipAddress userAgent
    (.ok res, db')

/-! ## Rank queries (src/services/scoreService.ts) -/

/-- SQL comparison `score > x` where x is a scalar subquery result that may
    be NULL: comparing against NULL is NULL, which WHERE filters out. -/
def sqlGt (a : Int) : Option Int → Bool
  | none => false
  | some b => decide (b < a)

/-- getUserRank: SELECT COUNT(*) + 1 FROM scores WHERE score >
    (SELECT score FROM scores WHERE user_id = uid). When the participant has
    no row the subquery yields NULL and no row passes the filter. The
    COALESCE variant in leaderboardService.getLeaderboard behaves
    identically: COALESCE applies to an existing row's column, not to an
    empty subquery result, and the score column is never NULL. -/
def getUserRank (db : DB) (userId : String) : Nat :=
  (db.scores.filter (fun r => sqlGt r.score (findScore db.scores userId))).length + 1

/-- getUserScore: Redis is consulted first (cached is the parsed cache hit,
    none when the key is absent); on a miss the scores table is read and an
    absent row reports 0. -/
def getUserScore (db : DB) (userId : String) (cached : Option Int) : Int :=
  match cached with
  | some c => c
  | none => (findScore db.scores userId).getD 0

/-- Insert one element into a list sorted descending by key, after every
    element with a key at least as large. -/
def insertDescBy {α : Type} (key : α → Int) (a : α) : List α → List α
  | [] => [a]
  | x :: xs => if key x < key a then a :: x :: xs else x :: insertDescBy key a xs

/-- ORDER BY key DESC, realised as an insertion sort. -/
def sortDescBy {α : Type} (key : α → Int) : List α → List α
  | [] => []
  | a :: as => insertDescBy key a (sortDescBy key as)

/-- isUserInTop10: membership of uid in
    (SELECT user_id FROM scores ORDER BY score DESC LIMIT 10). -/
def isUserInTop10 (db : DB) (userId : String) : Bool :=
  ((sortDescBy (fun r => r.score) db.scores).take 10).any
    (fun r => r.userId == userId)

/-! ## Leaderboard service (src/services/leaderboardService.ts) -/

/-- One element of the leaderboard listing returned by getTopUsers. -/
structure LeaderboardEntry where
  userId : String
  username : String
  score : Int
  rank : Nat
  deriving Repr, DecidableEq

/-- FROM scores s INNER JOIN users u ON s.user_id = u.user_id: rows whose
    participant has no users row are dropped. -/
def joinUsers (db : DB) : List (String × String × Int) :=
  db.scores.filterMap (fun r =>
    (db.users.find? (fun u => u.userId == r.userId)).map
      (fun u => (r.userId, u.username, r.score)))

/-- The SQL of getTopUsers. ROW_NUMBER() OVER (ORDER BY s.score DESC) is
    computed over the whole joined result before LIMIT/OFFSET applies, so
    the rank column of the row at page position i holds its global 1-based
    position, offset + i + 1. -/
def sqlTopRows (db : DB) (limit offset : Nat) :
    List (String × String × Int × Nat) :=
  let sorted := sortDescBy (fun q => q.2.2) (joinUsers db)
  let numbered := sorted.enum.map
    (fun p => (p.2.1, p.2.2.1, p.2.2.2, p.1 + 1))
  (numbered.drop offset).take limit

/-- The rows getTopUsers builds from the query result: the JavaScript adds
    offset to the rank column a second time
    (rank: parseInt(row.rank, 10) + offset). -/
def dbTopUsers (db : DB) (limit offset : Nat) : List LeaderboardEntry :=
  (sqlTopRows db limit offset).map
    (fun q => ⟨q.1, q.2.1, q.2.2.1, q.2.2.2 + offset⟩)

/-- The Redis key leaderboard:top10: a cached listing with the absolute
    time at which Redis expires it (setEx with a relative TTL). -/
structure RankCache where
  value : Option (List LeaderboardEntry)
  expiry : Int
  deriving Repr, DecidableEq

/-- A Redis GET at time now: a hit only while the key exists and is not
    yet expired. -/
def cacheGet (now : Int) (c : RankCache) : Option (List LeaderboardEntry) :=
  match c.value with
  | some v => if now < c.expiry then some v else none
  | none => none

/-- LEADERBOARD_CACHE_TTL, 30 seconds, in milliseconds. -/
def LEADERBOARD_CACHE_TTL_MS : Int := 30 * 1000

/-- getTopUsers: for offset 0 the cache is read first and a hit returns
    leaderboard.slice(0, limit); otherwise the store is queried, and the
    result of any offset-0 query (whatever its limit) is written back to
    the cache with a fresh 30-second expiry. Non-zero offsets never touch
    the cache. Returns the listing and the cache state after the call. -/
def getTopUsers (now : Int) (db : DB) (cache : RankCache)
    (limit offset : Nat) : List LeaderboardEntry × RankCache :=
  if offset = 0 then
    match cacheGet now cache with
    | some lb => (lb.take limit, cache)
    | none =>
        let result := dbTopUsers db limit 0
        (result, ⟨some result, now + LEADERBOARD_CACHE_TTL_MS⟩)
  else
    (dbTopUsers db limit offset, cache)

/-- getTotalUsers: SELECT COUNT(*) FROM scores. -/
def getTotalUsers (db : DB) : Nat :=
  db.scores.length

/-- The body of getLeaderboard's response. -/
structure LeaderboardResponse where
  leaderboard : List LeaderboardEntry
  userRank : Option Nat
  totalUsers : Nat
  deriving Repr, DecidableEq

/-- getLeaderboard: the listing, the caller's rank when authenticated
    (same NULL-filtering subquery semantics as getUserRank), and the
    participant count. -/
def getLeaderboard (now : Int) (db : DB) (cache : RankCache)
    (limit offset : Nat) (userId : Option String) :
    LeaderboardResponse × RankCache :=
  let (lb, cache') := getTopUsers now db cache limit offset
  (⟨lb, userId.map (fun u => getUserRank db u), getTotalUsers db⟩, cache')

/-! ## Score controller (src/controllers/scoreController.ts) -/

/-- The data field of a successful score-update response. -/
structure ScoreUpdateData where
  userId : String
  previousScore : Int
  newScore : Int
  rank : Nat
  isTop10 : Bool
  deriving Repr, DecidableEq

/-- What updateUserScore sends back (the authenticated path). -/
inductive ScoreUpdateOutcome where
  | invalidRequest (message : String)
  | ok (data : ScoreUpdateData)
  deriving Repr, DecidableEq

/-- updateUserScore: validate, run the mutation, recompute rank and top-10
    membership, and — only when the participant is in the top 10 — broadcast
    locally and publish {userId, timestamp: Date.now()} on the Redis channel
    leaderboard:updates (publishLeaderboardUpdate in websocketService.ts).
    Returns the HTTP outcome, the store after the call, and the list of
    messages published on the shared channel. -/
def updateUserScore (now : Int) (db : DB) (userId : String)
    (scoreIncrement : ℚ) (actionId : Option String) (timestamp : Option Int)
    (ipAddress userAgent : Option String) :
    ScoreUpdateOutcome × DB × List (String × Int) :=
  match validateScoreUpdateRequest now scoreIncrement timestamp with
  | .error msg => (.invalidRequest msg, db, [])
  | .ok _ =>
      let (res, db') :=
        updateScore db userId scoreIncrement.num actionId ipAddress userAgent
      let rank := getUserRank db' userId
      let inTop10 := isUserInTop10 db' userId
      let published := if inTop10 then [(userId, now)] else []
      (.ok ⟨userId, res.previousScore, res.newScore, rank, inTop10⟩, db', published)

/-! ## Leaderboard controller (src/controllers/leaderboardController.ts) -/

/-- What getLeaderboardData sends back. -/
inductive LbOutcome where
  | invalidRequest
  | ok (resp : LeaderboardResponse)
  | internalError
  deriving Repr, DecidableEq

/-- limit < b for a JavaScript number that may be NaN: false for NaN. -/
def jsLt (a : Option Int) (b : Int) : Bool :=
  match a with
  | none => false
  | some v => decide (v < b)

/-- b < limit for a JavaScript number that may be NaN: false for NaN. -/
def jsGt (a : Option Int) (b : Int) : Bool :=
  match a with
  | none => false
  | some v => decide (b < v)

/-- getLeaderboardData. limit and offset are the values produced by
    parseInt on the query strings (with the defaults 10 and 0 substituted
    for absent parameters); none models NaN from a non-numeric string. The
    only validation is the limit range check, and NaN fails neither
    comparison. A request that passes it always reaches the store: with a
    NaN limit and a warm offset-0 cache the cache hit's slice(0, NaN) is
    empty and the call still counts participants; every other NaN or
    negative parameter makes PostgreSQL reject the query (negative OFFSET,
    non-integer LIMIT/OFFSET), which the controller reports as a 500
    internal error. Returns the outcome, the cache state after the call,
    and whether the store was consulted. -/
def getLeaderboardData (now : Int) (db : DB) (cache : RankCache)
    (limit offset : Option Int) (userId : Option String) :
    LbOutcome × RankCache × Bool :=
  if jsLt limit 1 ∨ jsGt limit 100 then
    (.invalidRequest, cache, false)
  else
    match limit, offset with
    | some l, some o =>
        if 0 ≤ o then
          let (resp, cache') := getLeaderboard now db cache l.toNat o.toNat userId
          (.ok resp, cache', true)
        else (.internalError, cache, true)
    | none, some o =>
        if o = 0 then
          match cacheGet now cache with
          | some _ =>
              (.ok ⟨[], userId.map (fun u => getUserRank db u), getTotalUsers db⟩,
               cache, true)
          | none => (.internalError, cache, true)
        else (.internalError, cache, true)
    | _, none => (.internalError, cache, true)

/-! ## Concrete fixtures used by the example-level theorems -/

/-- Four participants with the scores of the spec's rank example. -/
def db4 : DB :=
  { users := [⟨"u1", "alice"⟩, ⟨"u2", "bob"⟩, ⟨"u3", "carol"⟩, ⟨"u4", "dave"⟩],
    scores := [⟨"u1", 500⟩, ⟨"u2", 450⟩, ⟨"u3", 150⟩, ⟨"u4", 100⟩],
    history := [] }

/-- Five participants with strictly descending scores. -/
def db5 : DB :=
  { users := [⟨"u1", "alice"⟩, ⟨"u2", "bob"⟩, ⟨"u3", "carol"⟩,
              ⟨"u4", "dave"⟩, ⟨"u5", "erin"⟩],
    scores := [⟨"u1", 500⟩, ⟨"u2", 400⟩, ⟨"u3", 300⟩, ⟨"u4", 200⟩, ⟨"u5", 100⟩],
    history := [] }

/-- Ten high scorers plus one participant who stays outside the top 10. -/
def db11 : DB :=
  { users := [⟨"t0", "top0"⟩, ⟨"t1", "top1"⟩, ⟨"t2", "top2"⟩, ⟨"t3", "top3"⟩,
              ⟨"t4", "top4"⟩, ⟨"t5", "top5"⟩, ⟨"t6", "top6"⟩, ⟨"t7", "top7"⟩,
              ⟨"t8", "top8"⟩, ⟨"t9", "top9"⟩, ⟨"me", "me"⟩],
    scores := [⟨"t0", 100⟩, ⟨"t1", 101⟩, ⟨"t2", 102⟩, ⟨"t3", 103⟩, ⟨"t4", 104⟩,
               ⟨"t5", 105⟩, ⟨"t6", 106⟩, ⟨"t7", 107⟩, ⟨"t8", 108⟩, ⟨"t9", 109⟩,
               ⟨"me", 1⟩],
    history := [] }

/-- An empty (cold) rank cache. -/
def emptyCache : RankCache := ⟨none, 0⟩

/-- A warm cache whose snapshot is still within its expiry at time 5. -/
def warmCache : RankCache :=
  ⟨some [⟨"u1", "alice", 500, 1⟩, ⟨"u2", "bob", 400, 2⟩], 100⟩

/-! ## Claim theorems -/

/-- Claim C1: for every participant with current score s and every valid
    increment i in [1, 1000], a successful apply_delta (updateScore) returns
    previous_score = s and new_score = s + i, and appends exactly one audit
    entry for the mutation whose previous_score is s and whose new_score
    equals previous_score + increment. -/
theorem updateScore_returns_sum_and_appends_one_audit_entry
    (db : DB) (uid : String) (s i : Int) (aid ip ua : Option String)
    (hs : (findScore db.scores uid).getD 0 = s)
    (_h1 : 1 ≤ i) (_h2 : i ≤ 1000) :
    (updateScore db uid i aid ip ua).1 = ⟨s, s + i⟩ ∧
    (updateScore db uid i aid ip ua).2.history =
      db.history ++ [⟨uid, i, s, s + i, aid, ip, ua⟩] ∧
    (⟨uid, i, s, s + i, aid, ip, ua⟩ : HistoryEntry).newScore =
      (⟨uid, i, s, s + i, aid, ip, ua⟩ : HistoryEntry).previousScore +
        (⟨uid, i, s, s + i, aid, ip, ua⟩ : HistoryEntry).scoreIncrement := by
  subst hs
  exact ⟨rfl, rfl, rfl⟩

/-- Witness for Claim C1 at a concrete store: bob at score 450 receives
    increment 50. -/
theorem updateScore_returns_sum_witness :
    (updateScore db4 "u2" 50 none none none).1 = ⟨450, 450 + 50⟩ ∧
    (updateScore db4 "u2" 50 none none none).2.history =
      db4.history ++ [⟨"u2", 50, 450, 450 + 50, none, none, none⟩] ∧
    (⟨"u2", 50, 450, 450 + 50, none, none, none⟩ : HistoryEntry).newScore =
      (⟨"u2", 50, 450, 450 + 50, none, none, none⟩ : HistoryEntry).previousScore +
        (⟨"u2", 50, 450, 450 + 50, none, none, none⟩ : HistoryEntry).scoreIncrement :=
  updateScore_returns_sum_and_appends_one_audit_entry db4 "u2" 450 50
    none none none (by decide) (by decide) (by decide)

/-- Claim C2: for every increment outside [1, 1000] — below 1, above 1000,
    or not an integer — the update pipeline fails with the validation error
    and neither the scores table nor the audit table is touched, and nothing
    is published. -/
theorem invalid_increment_rejected_without_storage_mutation
    (now : Int) (db : DB) (uid : String) (inc : ℚ) (aid : Option String)
    (ts : Option Int) (ip ua : Option String)
    (h : inc.den ≠ 1 ∨ inc < 1 ∨ 1000 < inc) :
    updateUserScore now db uid inc aid ts ip ua =
      (.invalidRequest "Score increment must be between 1 and 1000", db, []) := by
  unfold updateUserScore validateScoreUpdateRequest
  rw [if_pos h]

/-- Witness for Claim C2 at the concrete increments 0, -5, 1001 and 3/2. -/
theorem invalid_increment_rejected_witness :
    updateUserScore 0 db4 "u2" 0 none none none none =
      (.invalidRequest "Score increment must be between 1 and 1000", db4, []) ∧
    updateUserScore 0 db4 "u2" (-5) none none none none =
      (.invalidRequest "Score increment must be between 1 and 1000", db4, []) ∧
    updateUserScore 0 db4 "u2" 1001 none none none none =
      (.invalidRequest "Score increment must be between 1 and 1000", db4, []) ∧
    updateUserScore 0 db4 "u2" (3 / 2 : ℚ) none none none none =
      (.invalidRequest "Score increment must be between 1 and 1000", db4, []) :=
  ⟨invalid_increment_rejected_without_storage_mutation 0 db4 "u2" 0
      none none none none (by decide),
   invalid_increment_rejected_without_storage_mutation 0 db4 "u2" (-5)
      none none none none (by decide),
   invalid_increment_rejected_without_storage_mutation 0 db4 "u2" 1001
      none none none none (by decide),
   invalid_increment_rejected_without_storage_mutation 0 db4 "u2" (3 / 2 : ℚ)
      none none none none (Or.inl (by norm_num))⟩

/-- Claim C3: whatever storage step of the transaction fails, the whole
    unit of work is rolled back (the store is exactly its prior state) and
    the error is surfaced; on success the committed state is exactly the
    atomic application of both the score write and the audit insert, so no
    partial state is ever observable. -/
theorem updateScoreTx_atomic (f : TxFaults) (db : DB) (uid : String)
    (inc : Int) (aid ip ua : Option String) :
    ((updateScoreTx f db uid inc aid ip ua).1 = .error () ↔
      (f.failSelect || f.failUpsert || f.failInsertHistory || f.failCommit) = true) ∧
    ((updateScoreTx f db uid inc aid ip ua).1 = .error () →
      (updateScoreTx f db uid inc aid ip ua).2 = db) ∧
    (∀ res, (updateScoreTx f db uid inc aid ip ua).1 = .ok res →
      (updateScoreTx f db uid inc aid ip ua).2 =
        (updateScore db uid inc aid ip ua).2 ∧
      res = (updateScore db uid inc aid ip ua).1) := by
  obtain ⟨a, b, c, d⟩ := f
  cases a <;> cases b <;> cases c <;> cases d <;>
    simp [updateScoreTx]

/-- Witness for Claim C3: a failing COMMIT leaves the concrete store
    untouched, and the fault-free run commits the atomic update. -/
theorem updateScoreTx_atomic_witness :
    (updateScoreTx ⟨false, false, false, true⟩ db4 "u2" 50 none none none).2 =
      db4 ∧
    (updateScoreTx ⟨false, false, false, false⟩ db4 "u2" 50 none none none).2 =
      (updateScore db4 "u2" 50 none none none).2 :=
  ⟨(updateScoreTx_atomic ⟨false, false, false, true⟩ db4 "u2" 50
      none none none).2.1 rfl,
   ((updateScoreTx_atomic ⟨false, false, false, false⟩ db4 "u2" 50
      none none none).2.2 (updateScore db4 "u2" 50 none none none).1 rfl).1⟩

/-- Claim C4: evaluating getTopUsers at a store of five participants with
    strictly descending scores [500, 400, 300, 200, 100] and a page of
    limit 2, offset 2: the page holds the participants at ordinal positions
    3 and 4 (as getUserRank confirms), yet the listing labels them with
    ranks 5 and 6, because ROW_NUMBER already accounts for the skipped
    offset and the controller adds the offset a second time. -/
theorem dbTopUsers_rank_double_counts_offset :
    (dbTopUsers db5 2 2).map (fun e => (e.userId, e.rank)) =
      [("u3", 5), ("u4", 6)] ∧
    getUserRank db5 "u3" = 3 ∧ getUserRank db5 "u4" = 4 := by decide

/-- Counterexample for Claim C5: a zero-offset query with limit 3 — not the
    canonical full top-N window — still repopulates the cache, and its
    3-entry snapshot differs from the top-10 window. -/
theorem getTopUsers_caches_any_zero_offset_window :
    (getTopUsers 0 db5 emptyCache 3 0).2.value = some (dbTopUsers db5 3 0) ∧
    dbTopUsers db5 3 0 ≠ dbTopUsers db5 10 0 := by decide

/-- Claim C5 (amended): offset 0 consults the cache first and a live hit
    returns a slice of the snapshot without touching the store or the cache;
    a zero-offset miss queries the store and repopulates the cache with the
    query's own (limit-sized) result and a fresh 30-second expiry, whatever
    the limit; any non-zero offset bypasses the cache entirely in both
    directions. -/
theorem getTopUsers_cache_policy (now : Int) (db : DB) (cache : RankCache)
    (limit offset : Nat) :
    (∀ lb, offset = 0 → cacheGet now cache = some lb →
      getTopUsers now db cache limit offset = (lb.take limit, cache)) ∧
    (offset = 0 → cacheGet now cache = none →
      getTopUsers now db cache limit offset =
        (dbTopUsers db limit 0,
         ⟨some (dbTopUsers db limit 0), now + LEADERBOARD_CACHE_TTL_MS⟩)) ∧
    (offset ≠ 0 →
      getTopUsers now db cache limit offset =
        (dbTopUsers db limit offset, cache)) := by
  refine ⟨fun lb h0 hhit => ?_, fun h0 hmiss => ?_, fun hne => ?_⟩
  · subst h0; simp [getTopUsers, hhit]
  · subst h0; simp [getTopUsers, hmiss]
  · simp [getTopUsers, hne]

/-- Witness for Claim C5 (amended), one concrete run per branch: a live
    cache hit at time 5 returns the slice and keeps the cache; a cold
    zero-offset limit-3 query repopulates; offset 2 bypasses the cache. -/
theorem getTopUsers_cache_policy_witness :
    getTopUsers 5 db5 warmCache 1 0 =
      (([⟨"u1", "alice", 500, 1⟩, ⟨"u2", "bob", 400, 2⟩] :
          List LeaderboardEntry).take 1, warmCache) ∧
    getTopUsers 0 db5 emptyCache 3 0 =
      (dbTopUsers db5 3 0,
       ⟨some (dbTopUsers db5 3 0), 0 + LEADERBOARD_CACHE_TTL_MS⟩) ∧
    getTopUsers 0 db5 emptyCache 2 2 = (dbTopUsers db5 2 2, emptyCache) :=
  ⟨(getTopUsers_cache_policy 5 db5 warmCache 1 0).1
      [⟨"u1", "alice", 500, 1⟩, ⟨"u2", "bob", 400, 2⟩] rfl (by decide),
   (getTopUsers_cache_policy 0 db5 emptyCache 3 0).2.1 rfl (by decide),
   (getTopUsers_cache_policy 0 db5 emptyCache 2 2).2.2 (by decide)⟩

/-- Counterexample for Claim C6: a successful commit for a participant who
    ends outside the top 10 (eleven participants, the mutated one lowest)
    publishes nothing on the shared channel. -/
theorem successful_commit_without_publish :
    (updateUserScore 99 db11 "me" 5 none none none none).1 =
      .ok ⟨"me", 1, 6, 11, false⟩ ∧
    (updateUserScore 99 db11 "me" 5 none none none none).2.2 = [] := by decide

/-- Claim C6 (amended): after a successful apply_delta commit the message
    {participant, timestamp} is published on the shared channel exactly when
    the participant is in the top-10 window of the committed state; for a
    participant outside that window nothing is published. -/
theorem publish_iff_in_top10 (now : Int) (db : DB) (uid : String) (inc : ℚ)
    (aid : Option String) (ts : Option Int) (ip ua : Option String)
    (hval : validateScoreUpdateRequest now inc ts = .ok true) :
    (updateUserScore now db uid inc aid ts ip ua).2.2 =
      (if isUserInTop10 (updateScore db uid inc.num aid ip ua).2 uid then
        [(uid, now)] else []) := by
  unfold updateUserScore
  rw [hval]

/-- Witness for Claim C6 (amended): bob's increment keeps him in the top 10
    of the four-participant store, so exactly ("u2", 99) is published. -/
theorem publish_iff_in_top10_witness :
    (updateUserScore 99 db4 "u2" 50 none none none none).2.2 =
      (if isUserInTop10 (updateScore db4 "u2" (50 : ℚ).num none none none).2 "u2"
       then [("u2", 99)] else []) :=
  publish_iff_in_top10 99 db4 "u2" 50 none none none none rfl

/-- Claim C7: for a participant holding a ScoreRecord with score s, the rank
    is 1 plus the count of participants with strictly greater score; with
    scores [500, 450, 150, 100] the score-450 participant has rank 2, and
    get_top_n(10, 0) lists the scores in descending order. -/
theorem rank_is_one_plus_strictly_greater_count (db : DB) (uid : String)
    (s : Int) (h : findScore db.scores uid = some s) :
    getUserRank db uid =
      1 + (db.scores.filter (fun r => decide (s < r.score))).length ∧
    getUserRank db4 "u2" = 2 ∧
    (getTopUsers 0 db4 emptyCache 10 0).1.map (fun e => e.score) =
      [500, 450, 150, 100] := by
  refine ⟨?_, by decide, by decide⟩
  unfold getUserRank
  rw [h, Nat.add_comm]
  rfl

/-- Witness for Claim C7 at the score-450 participant of the example store. -/
theorem rank_is_one_plus_strictly_greater_count_witness :
    getUserRank db4 "u2" =
      1 + (db4.scores.filter (fun r => decide ((450 : Int) < r.score))).length ∧
    getUserRank db4 "u2" = 2 ∧
    (getTopUsers 0 db4 emptyCache 10 0).1.map (fun e => e.score) =
      [500, 450, 150, 100] :=
  rank_is_one_plus_strictly_greater_count db4 "u2" 450 (by decide)

/-- Counterexample for Claim C8: a supplied timestamp of 0 — far outside
    the ±5-minute window of a present-day server clock — passes validation
    (JavaScript treats 0 as falsy, so both guards skip it), and the update
    pipeline goes on to mutate storage. -/
theorem timestamp_zero_passes_validation :
    validateScoreUpdateRequest 1760227200000 10 (some 0) = .ok true ∧
    ¬ (|(1760227200000 : Int) - 0| ≤ MAX_TIME_DIFF) ∧
    (updateUserScore 1760227200000 db4 "u2" 10 none (some 0) none none).2.1 ≠
      db4 := by
  refine ⟨rfl, by decide, by decide⟩

/-- Claim C8 (amended): for a request with a valid increment and a nonzero
    timestamp, validation succeeds when the timestamp is within ±5 minutes
    of server time, and a timestamp outside the window makes the whole call
    fail with the replay-window validation error before any storage
    interaction; the literal timestamp 0 is treated as an absent timestamp
    and is not checked against the window. -/
theorem timestamp_window_enforced (now t : Int) (inc : ℚ) (db : DB)
    (uid : String) (aid ip ua : Option String)
    (hden : inc.den = 1) (hlo : 1 ≤ inc) (hhi : inc ≤ 1000) (ht : t ≠ 0) :
    (|now - t| ≤ MAX_TIME_DIFF →
      validateScoreUpdateRequest now inc (some t) = .ok true) ∧
    (MAX_TIME_DIFF < |now - t| →
      updateUserScore now db uid inc aid (some t) ip ua =
        (.invalidRequest "Invalid timestamp - possible replay attack",
         db, [])) := by
  have hnot : ¬ (inc.den ≠ 1 ∨ inc < 1 ∨ 1000 < inc) := by
    push_neg
    exact ⟨hden, hlo, hhi⟩
  constructor
  · intro h
    have hv : validateTimestamp now (some t) = true := by
      show (if t = 0 then true else decide (|now - t| ≤ MAX_TIME_DIFF)) = true
      rw [if_neg ht]
      exact decide_eq_true h
    unfold validateScoreUpdateRequest
    rw [if_neg hnot, if_neg (fun hc => hc.2 hv)]
  · intro h
    have hv : validateTimestamp now (some t) = false := by
      show (if t = 0 then true else decide (|now - t| ≤ MAX_TIME_DIFF)) = false
      rw [if_neg ht]
      exact decide_eq_false (not_le.mpr h)
    have hverr : validateScoreUpdateRequest now inc (some t) =
        .error "Invalid timestamp - possible replay attack" := by
      unfold validateScoreUpdateRequest
      rw [if_neg hnot, if_pos ⟨by simp [jsTruthy, ht], by simp [hv]⟩]
    unfold updateUserScore
    rw [hverr]

/-- Witness for Claim C8 (amended): at server time 0 a timestamp of 301000
    milliseconds (5 minutes 1 second away) is rejected before storage. -/
theorem timestamp_window_enforced_witness :
    updateUserScore 0 db4 "u2" 10 none (some 301000) none none =
      (.invalidRequest "Invalid timestamp - possible replay attack",
       db4, []) :=
  (timestamp_window_enforced 0 301000 10 db4 "u2" none none none
      rfl (by norm_num) (by norm_num) (by decide)).2 (by decide)

/-- Claim C9: the leaderboard controller's only input check is the numeric
    limit range. A request with the default limit 10 and offset -1 is not
    rejected as invalid and reaches the store (PostgreSQL then refuses the
    negative OFFSET, surfaced as an internal error), and a non-numeric
    limit (parseInt yields NaN) fails neither comparison of the range check
    and likewise reaches the store, while a numeric out-of-range limit is
    rejected without consulting the store. -/
theorem leaderboard_query_validation_gaps :
    (getLeaderboardData 0 db4 emptyCache (some 10) (some (-1)) none).1 ≠
      LbOutcome.invalidRequest ∧
    (getLeaderboardData 0 db4 emptyCache (some 10) (some (-1)) none).2.2 =
      true ∧
    (getLeaderboardData 0 db4 emptyCache none (some 0) none).1 ≠
      LbOutcome.invalidRequest ∧
    (getLeaderboardData 0 db4 emptyCache none (some 0) none).2.2 = true ∧
    (getLeaderboardData 0 db4 emptyCache (some 200) (some 0) none).1 =
      LbOutcome.invalidRequest ∧
    (getLeaderboardData 0 db4 emptyCache (some 200) (some 0) none).2.2 =
      false := by
  decide

/-- Claim C10: a participant without a ScoreRecord gets rank 1 — the
    strictly-greater comparison against the NULL subquery result counts
    nobody — while getUserScore reports 0 for the same participant; in the
    example store with four positive scores this differs from
    1 + the count of participants with score above 0 (which is 5). -/
theorem absent_scorerecord_rank_one (db : DB) (uid : String)
    (h : findScore db.scores uid = none) :
    getUserRank db uid = 1 ∧
    getUserScore db uid none = 0 ∧
    getUserRank db4 "ghost" = 1 ∧
    getUserRank db4 "ghost" ≠
      1 + (db4.scores.filter (fun r => decide ((0 : Int) < r.score))).length := by
  refine ⟨?_, ?_, by decide, by decide⟩
  · unfold getUserRank
    rw [h]
    simp [sqlGt]
  · unfold getUserScore
    rw [h]
    rfl

/-- Witness for Claim C10: the participant "ghost" has no row in the
    example store. -/
theorem absent_scorerecord_rank_one_witness :
    getUserRank db4 "ghost" = 1 ∧
    getUserScore db4 "ghost" none = 0 ∧
    getUserRank db4 "ghost" = 1 ∧
    getUserRank db4 "ghost" ≠
      1 + (db4.scores.filter (fun r => decide ((0 : Int) < r.score))).length :=
  absent_scorerecord_rank_one db4 "ghost" (by decide)

end Scoreboard
